import Mathlib

/-!
Verification development for the Spiral-chip-removal-trough repository.

The repository computes the two-dimensional unrolled (developed) geometry of a
helical flute on a drill bit.  The core lives in
`SpiralGrooveTool/SpiralCalculator.cpp` (`CalculateSpiralGroove`,
`CalculateBoundaries`, `CalculateToolOutline`), the view-fitting and
validation logic in `MainWindow::GenerateSpiral`, and the optional AutoCAD
pass-through in `AutoCADDrawer.cpp`.

Modelling conventions of this shallow embedding:
* C++ `double` is modelled by `ℝ`; division by zero in `ℝ` yields `0`, which
  makes the C++ non-finite fallback tests (`isnan`, `isinf`) collapse into the
  `≤ 0` test (see the comment on `CalculateSpiralGroove`).
* The C `(int)` cast is truncation toward zero, modelled by `truncToInt`.
* `std::vector` is modelled by `List`.
* COM/automation outcomes in `AutoCADDrawer` are modelled by explicit boolean
  environment flags (`AcadEnv`), one environment per automation call.
-/

set_option maxHeartbeats 1000000
set_option linter.unusedVariables false

open Real

/-- Two-dimensional point, from `SpiralCalculator.h` (`struct Point2D`).
Coordinates are C++ `double`, modelled as real numbers. -/
@[ext]
structure Point2D where
  x : ℝ
  y : ℝ

/-- The C++ default constructor is `Point2D() : x(0), y(0)`. -/
instance : Inhabited Point2D := ⟨⟨0, 0⟩⟩

/-- C-style `(int)` cast of a `double`: truncation toward zero. -/
noncomputable def truncToInt (r : ℝ) : ℤ :=
  if r < 0 then -⌊-r⌋ else ⌊r⌋

namespace SpiralCalculator

/-- Axial pitch of the helix, from `SpiralCalculator.cpp` lines 20-28:
`angleRad = spiralAngle * π / 180`, `radius = drillDiameter / 2`,
`circumference = 2 π radius`, `pitch = circumference / tan(angleRad)`. -/
noncomputable def spiralPitch (spiralAngle drillDiameter : ℝ) : ℝ :=
  (2 * π * (drillDiameter / 2)) / Real.tan (spiralAngle * π / 180)

/-- Embedding of `SpiralCalculator::CalculateSpiralGroove`
(`SpiralCalculator.cpp` lines 9-64).  `bladeWidth` and `bladeHeight` are
accepted and ignored, exactly as in the C++ source.  The C++ fallback test is
`totalRevolutions <= 0 || isnan(totalRevolutions) || isinf(totalRevolutions)`;
in the real-number model a zero `pitch` (the way C++ obtains `±inf` or NaN
here) makes `totalLength / pitch` equal to `0`, so every C++ fallback case
lands in the `totalRevolutions ≤ 0` branch below. -/
noncomputable def CalculateSpiralGroove (spiralAngle drillDiameter totalLength
    bladeWidth bladeHeight : ℝ) (pointsPerRevolution : ℤ) : List Point2D :=
  let radius := drillDiameter / 2
  let circumference := 2 * π * radius
  let pitch := spiralPitch spiralAngle drillDiameter
  let totalRevolutions := totalLength / pitch
  let totalRevolutions' := if totalRevolutions ≤ 0 then 1 else totalRevolutions
  let pitch' :=
    if totalRevolutions ≤ 0 then (if 0 < totalLength then totalLength else 1)
    else pitch
  let totalPoints : ℤ :=
    max (truncToInt (totalRevolutions' * (pointsPerRevolution : ℝ))) 10
  (List.range (totalPoints.toNat + 1)).map fun (i : ℕ) =>
    let t : ℝ := (i : ℝ) / ((totalPoints : ℤ) : ℝ)
    let x := t * totalLength
    { x := x, y := x / pitch' * circumference }

/-- The fallback-adjusted revolution count of `CalculateSpiralGroove`: the
value held by the C++ variable `totalRevolutions` after lines 31-40. -/
noncomputable def adjRevolutions (spiralAngle drillDiameter totalLength : ℝ) : ℝ :=
  if totalLength / spiralPitch spiralAngle drillDiameter ≤ 0 then 1
  else totalLength / spiralPitch spiralAngle drillDiameter

/-- The fallback-adjusted pitch of `CalculateSpiralGroove`: the value held by
the C++ variable `pitch` after lines 31-40. -/
noncomputable def adjPitch (spiralAngle drillDiameter totalLength : ℝ) : ℝ :=
  if totalLength / spiralPitch spiralAngle drillDiameter ≤ 0 then
    (if 0 < totalLength then totalLength else 1)
  else spiralPitch spiralAngle drillDiameter

/-- The sample-interval count `totalPoints` of `CalculateSpiralGroove`
(lines 42-44): the truncating `(int)` cast of
`totalRevolutions * pointsPerRevolution`, floored at 10. -/
noncomputable def totalPoints (spiralAngle drillDiameter totalLength : ℝ)
    (pointsPerRevolution : ℤ) : ℤ :=
  max (truncToInt (adjRevolutions spiralAngle drillDiameter totalLength *
    (pointsPerRevolution : ℝ))) 10

/-- Embedding of `SpiralCalculator::CalculateBoundaries`
(`SpiralCalculator.cpp` lines 66-98). -/
noncomputable def CalculateBoundaries (centerPoints : List Point2D)
    (bladeWidth : ℝ) : List (Point2D × Point2D) :=
  if centerPoints.length < 2 then []
  else
    let halfWidth := bladeWidth / 2
    centerPoints.map fun center =>
      ({ x := center.x, y := center.y + halfWidth },
       { x := center.x, y := center.y - halfWidth })

/-- Embedding of `SpiralCalculator::CalculateToolOutline`
(`SpiralCalculator.cpp` lines 100-124). -/
noncomputable def CalculateToolOutline (drillDiameter totalLength : ℝ) :
    List Point2D :=
  let radius := drillDiameter / 2
  [{ x := 0, y := -radius },
   { x := totalLength, y := -radius },
   { x := totalLength, y := radius },
   { x := 0, y := radius },
   { x := 0, y := -radius }]

end SpiralCalculator

/-- The drawing transform stored in `MainWindow` (`m_scaleX`, `m_scaleY`,
`m_offsetX`, `m_offsetY`). -/
structure ViewState where
  scaleX : ℝ
  scaleY : ℝ
  offsetX : ℝ
  offsetY : ℝ

namespace MainWindow

/-- Bounding-box accumulation over a point list, mirroring the
`std::min`/`std::max` folds of `MainWindow::GenerateSpiral` (lines 174-180 and
192-198).  The accumulator is `(minX, maxX, minY, maxY)`. -/
noncomputable def expandBounds (b : ℝ × ℝ × ℝ × ℝ) (pts : List Point2D) :
    ℝ × ℝ × ℝ × ℝ :=
  pts.foldl
    (fun acc pt =>
      (min acc.1 pt.x, max acc.2.1 pt.x, min acc.2.2.1 pt.y, max acc.2.2.2 pt.y))
    b

/-- Bounding-box accumulation over the boundary pairs, mirroring
`MainWindow::GenerateSpiral` lines 183-189. -/
noncomputable def expandBoundsPairs (b : ℝ × ℝ × ℝ × ℝ)
    (bs : List (Point2D × Point2D)) : ℝ × ℝ × ℝ × ℝ :=
  bs.foldl
    (fun acc pr =>
      (min acc.1 (min pr.1.x pr.2.x), max acc.2.1 (max pr.1.x pr.2.x),
       min acc.2.2.1 (min pr.1.y pr.2.y), max acc.2.2.2 (max pr.1.y pr.2.y)))
    b

/-- View-fitting step of `MainWindow::GenerateSpiral` (lines 200-219).
`clientWidth`/`clientHeight` are the already-shrunk client-area dimensions
(`rect.right - rect.left - 250` and `rect.bottom - rect.top - 20`); the target
drawing rectangle starts at x = 250, y = 10.  When either range is not
strictly positive the previous transform is kept (the C++ code leaves the
members untouched). -/
noncomputable def fitView (prev : ViewState) (clientWidth clientHeight
    minX maxX minY maxY : ℝ) : ViewState :=
  let rangeX := maxX - minX
  let rangeY := maxY - minY
  if 0 < rangeX ∧ 0 < rangeY then
    let scale := min (clientWidth / rangeX * 0.85) (clientHeight / rangeY * 0.85)
    { scaleX := scale
      scaleY := scale
      offsetX := 250 + (clientWidth - rangeX * scale) / 2 - minX * scale
      offsetY := 10 + (clientHeight - rangeY * scale) / 2 - minY * scale }
  else prev

/-- The geometry and transform members of `MainWindow`. -/
structure MainState where
  centerPoints : List Point2D
  boundaries : List (Point2D × Point2D)
  toolOutline : List Point2D
  view : ViewState

/-- The validation message shown by `MainWindow::GenerateSpiral` on invalid
input ("please enter valid parameter values"). -/
def validationMessage : String := "请输入有效的参数值！"

/-- Embedding of `MainWindow::GenerateSpiral` (MainWindow implementation,
lines 131-224).  Input is the previous widget state, the client-area
dimensions and the five parsed parameters; output is the new state together
with the validation message, if one was surfaced. -/
noncomputable def GenerateSpiral (st : MainState) (clientWidth clientHeight
    spiralAngle drillDiameter totalLength bladeWidth bladeHeight : ℝ) :
    MainState × Option String :=
  if spiralAngle ≤ 0 ∨ 90 ≤ spiralAngle ∨ drillDiameter ≤ 0 ∨
      totalLength ≤ 0 ∨ bladeWidth ≤ 0 ∨ bladeHeight ≤ 0 then
    (st, some validationMessage)
  else
    let cps := SpiralCalculator.CalculateSpiralGroove spiralAngle drillDiameter
      totalLength bladeWidth bladeHeight 100
    let bs := SpiralCalculator.CalculateBoundaries cps bladeWidth
    let outline := SpiralCalculator.CalculateToolOutline drillDiameter totalLength
    let view' :=
      match cps with
      | [] => st.view
      | p0 :: _ =>
        let b1 := expandBounds (p0.x, p0.x, p0.y, p0.y) cps
        let b2 := expandBoundsPairs b1 bs
        let b3 := expandBounds b2 outline
        fitView st.view clientWidth clientHeight b3.1 b3.2.1 b3.2.2.1 b3.2.2.2
    ({ centerPoints := cps, boundaries := bs, toolOutline := outline,
       view := view' }, none)

end MainWindow

namespace AutoCADDrawer

/-- Outcome flags of the COM environment for one
`CreatePolylineWithAutoCAD` call: `CoInitializeEx` success, `GetAutoCADApp`
success, `QueryInterface` success, `SafeArrayCreate` success, and whether the
`try` block throws. -/
structure AcadEnv where
  comInitOk : Bool
  appOk : Bool
  dispatchOk : Bool
  arrayOk : Bool
  throws : Bool

/-- Embedding of `AutoCADDrawer::CreatePolylineWithAutoCAD`
(`AutoCADDrawer.cpp` lines 252-330).  Returns the C++ `bool` result together
with the final value of the `output` parameter (the caller passes in a
default-constructed empty vector, so branches that never assign `output`
return `[]`).  The C++ success path executes `output = input` (line 308); the
`catch` handler assigns `output = input` and returns `false` (lines 322-327). -/
def CreatePolylineWithAutoCAD (env : AcadEnv) (input : List Point2D) :
    Bool × List Point2D :=
  if input.isEmpty then (true, input)
  else if !env.comInitOk then (false, [])
  else if env.throws then (false, input)
  else if env.appOk && env.dispatchOk && env.arrayOk then (true, input)
  else (false, [])

/-- The caller pattern of `GenerateWithAutoCADAPI`
(`AutoCADDrawer.cpp` lines 356-359, 370-378, 389-393):
`if (CreatePolylineWithAutoCAD(seq, optimized)) seq = optimized;` — the
sequence is replaced by the output only when the call returns `true`. -/
def refinePolyline (env : AcadEnv) (points : List Point2D) : List Point2D :=
  if (CreatePolylineWithAutoCAD env points).1 then
    (CreatePolylineWithAutoCAD env points).2
  else points

/-- Embedding of `AutoCADDrawer::GenerateWithAutoCADAPI`
(`AutoCADDrawer.cpp` lines 345-400).  `available` models
`IsAutoCADAvailable()`; each of the four `CreatePolylineWithAutoCAD` calls may
meet a different COM environment.  Returns the C++ `bool` together with the
final values of the three by-reference sequences.  The boundary pairs are
split into left/right lists, refined separately, and re-zipped up to the
shorter length (`minSize`), exactly as in the C++ source. -/
def GenerateWithAutoCADAPI (available : Bool) (envC envL envR envO : AcadEnv)
    (centerPoints : List Point2D) (boundaries : List (Point2D × Point2D))
    (toolOutline : List Point2D) :
    Bool × List Point2D × List (Point2D × Point2D) × List Point2D :=
  if available then
    let centerPoints' := refinePolyline envC centerPoints
    let leftPoints := boundaries.map Prod.fst
    let rightPoints := boundaries.map Prod.snd
    let leftPoints' := refinePolyline envL leftPoints
    let rightPoints' := refinePolyline envR rightPoints
    let boundaries' := leftPoints'.zip rightPoints'
    let toolOutline' := refinePolyline envO toolOutline
    (true, centerPoints', boundaries', toolOutline')
  else
    (false, centerPoints, boundaries, toolOutline)

end AutoCADDrawer

/-- The y-extent of a point list: y of the last point minus y of the first
point (default-constructed `Point2D` when the list is empty). -/
noncomputable def yExtent (l : List Point2D) : ℝ :=
  (l.getLastD ⟨0, 0⟩).y - (l.headD ⟨0, 0⟩).y

/-! ### Helper lemmas -/

lemma head?_range_map {α : Type _} (f : ℕ → α) (m : ℕ) :
    ((List.range (m + 1)).map f).head? = some (f 0) := by
  simp [List.range_succ_eq_map]

lemma getLast?_range_map {α : Type _} (f : ℕ → α) (m : ℕ) :
    ((List.range (m + 1)).map f).getLast? = some (f m) := by
  rw [List.range_succ, List.map_append]
  simp

namespace SpiralCalculator

lemma calculateSpiralGroove_eq (a d L bw bh : ℝ) (n : ℤ) :
    CalculateSpiralGroove a d L bw bh n =
      (List.range ((totalPoints a d L n).toNat + 1)).map fun i =>
        { x := (i : ℝ) / ((totalPoints a d L n : ℤ) : ℝ) * L,
          y := (i : ℝ) / ((totalPoints a d L n : ℤ) : ℝ) * L /
            adjPitch a d L * (2 * π * (d / 2)) } := by
  unfold CalculateSpiralGroove totalPoints adjRevolutions adjPitch
  rfl

lemma ten_le_totalPoints (a d L : ℝ) (n : ℤ) : 10 ≤ totalPoints a d L n :=
  le_max_right _ _

lemma totalPoints_toNat_cast (a d L : ℝ) (n : ℤ) :
    ((totalPoints a d L n).toNat : ℝ) = ((totalPoints a d L n : ℤ) : ℝ) := by
  have h : (0 : ℤ) ≤ totalPoints a d L n :=
    le_trans (by norm_num) (ten_le_totalPoints a d L n)
  exact_mod_cast congrArg (fun z : ℤ => (z : ℝ)) (Int.toNat_of_nonneg h)

lemma totalPoints_cast_pos (a d L : ℝ) (n : ℤ) :
    (0 : ℝ) < ((totalPoints a d L n : ℤ) : ℝ) := by
  have h := ten_le_totalPoints a d L n
  exact_mod_cast lt_of_lt_of_le (by norm_num : (0 : ℤ) < 10) h

lemma calculateSpiralGroove_length (a d L bw bh : ℝ) (n : ℤ) :
    (CalculateSpiralGroove a d L bw bh n).length =
      (totalPoints a d L n).toNat + 1 := by
  rw [calculateSpiralGroove_eq]
  simp

lemma calculateSpiralGroove_head? (a d L bw bh : ℝ) (n : ℤ) :
    (CalculateSpiralGroove a d L bw bh n).head? = some ⟨0, 0⟩ := by
  rw [calculateSpiralGroove_eq, head?_range_map]
  norm_num

lemma calculateSpiralGroove_getLast? (a d L bw bh : ℝ) (n : ℤ) :
    (CalculateSpiralGroove a d L bw bh n).getLast? =
      some ⟨L, L / adjPitch a d L * (2 * π * (d / 2))⟩ := by
  rw [calculateSpiralGroove_eq, getLast?_range_map]
  have hcast := totalPoints_toNat_cast a d L n
  have hpos := totalPoints_cast_pos a d L n
  rw [hcast, div_self (ne_of_gt hpos)]
  norm_num

lemma tan_angle_pos {a : ℝ} (h0 : 0 < a) (h90 : a < 90) :
    0 < Real.tan (a * π / 180) := by
  apply Real.tan_pos_of_pos_of_lt_pi_div_two
  · positivity
  · nlinarith [Real.pi_pos]

lemma spiralPitch_pos {a d : ℝ} (h0 : 0 < a) (h90 : a < 90) (hd : 0 < d) :
    0 < spiralPitch a d := by
  apply div_pos
  · have := Real.pi_pos
    positivity
  · exact tan_angle_pos h0 h90

lemma revolutions_pos {a d L : ℝ} (h0 : 0 < a) (h90 : a < 90) (hd : 0 < d)
    (hL : 0 < L) : 0 < L / spiralPitch a d :=
  div_pos hL (spiralPitch_pos h0 h90 hd)

lemma adjRevolutions_of_valid {a d L : ℝ} (h0 : 0 < a) (h90 : a < 90)
    (hd : 0 < d) (hL : 0 < L) :
    adjRevolutions a d L = L / spiralPitch a d :=
  if_neg (not_le.mpr (revolutions_pos h0 h90 hd hL))

lemma adjPitch_of_valid {a d L : ℝ} (h0 : 0 < a) (h90 : a < 90)
    (hd : 0 < d) (hL : 0 < L) :
    adjPitch a d L = spiralPitch a d :=
  if_neg (not_le.mpr (revolutions_pos h0 h90 hd hL))

lemma yLast_of_valid {a d L : ℝ} (h0 : 0 < a) (h90 : a < 90)
    (hd : 0 < d) (hL : 0 < L) :
    L / adjPitch a d L * (2 * π * (d / 2)) = L * Real.tan (a * π / 180) := by
  rw [adjPitch_of_valid h0 h90 hd hL, spiralPitch]
  have ht := ne_of_gt (tan_angle_pos h0 h90)
  have hc : (2 * π * (d / 2)) ≠ 0 := by
    have := Real.pi_pos
    positivity
  field_simp
  ring

lemma adjRevolutions_of_fallback {a d L : ℝ} (h : L / spiralPitch a d ≤ 0) :
    adjRevolutions a d L = 1 := if_pos h

lemma adjPitch_of_fallback {a d L : ℝ} (h : L / spiralPitch a d ≤ 0)
    (hL : 0 < L) : adjPitch a d L = L := by
  rw [adjPitch, if_pos h, if_pos hL]

end SpiralCalculator

namespace AutoCADDrawer

lemma createPolyline_fst_true {env : AcadEnv} {input : List Point2D}
    (h : (CreatePolylineWithAutoCAD env input).1 = true) :
    (CreatePolylineWithAutoCAD env input).2 = input := by
  unfold CreatePolylineWithAutoCAD at h ⊢
  split_ifs at h ⊢ <;> simp_all

lemma refinePolyline_eq_self (env : AcadEnv) (points : List Point2D) :
    refinePolyline env points = points := by
  unfold refinePolyline
  by_cases h : (CreatePolylineWithAutoCAD env points).1 = true
  · rw [if_pos h]
    exact createPolyline_fst_true h
  · rw [if_neg h]

end AutoCADDrawer

/-! ### Claim theorems -/

/-- C7: if any submitted input parameter is outside its valid domain (helix
angle not strictly between 0 and 90 degrees, or diameter, length, blade width
or blade height not strictly positive), `GenerateSpiral` rejects the
submission before any point generation: a single validation message is
surfaced and the previously stored centerline, boundaries, outline, scale and
offset remain unchanged. -/
theorem generateSpiral_rejects_invalid_input (st : MainWindow.MainState)
    (clientWidth clientHeight a d L bw bh : ℝ)
    (h : a ≤ 0 ∨ 90 ≤ a ∨ d ≤ 0 ∨ L ≤ 0 ∨ bw ≤ 0 ∨ bh ≤ 0) :
    MainWindow.GenerateSpiral st clientWidth clientHeight a d L bw bh =
      (st, some MainWindow.validationMessage) := by
  unfold MainWindow.GenerateSpiral
  rw [if_pos h]

/-- Witness for C7: a zero helix angle is rejected and the prior state (with
some stored geometry) is returned untouched, together with the validation
message. -/
theorem generateSpiral_rejects_invalid_input_witness :
    MainWindow.GenerateSpiral
        ⟨[{ x := 1, y := 2 }], [({ x := 1, y := 3 }, { x := 1, y := 1 })],
          [{ x := 0, y := -5 }], ⟨2, 2, 30, 40⟩⟩ 930 760 0 10 50 2 1 =
      (⟨[{ x := 1, y := 2 }], [({ x := 1, y := 3 }, { x := 1, y := 1 })],
          [{ x := 0, y := -5 }], ⟨2, 2, 30, 40⟩⟩,
        some MainWindow.validationMessage) :=
  generateSpiral_rejects_invalid_input _ _ _ _ _ _ _ _ (Or.inl (by norm_num))

/-- C8: `CalculateSpiralGroove` ignores `bladeHeight`: two runs whose inputs
differ only in (positive) `bladeHeight` return identical centerline point
sequences. -/
theorem calculateSpiralGroove_ignores_bladeHeight (a d L bw : ℝ) (n : ℤ)
    (bh₁ bh₂ : ℝ) (h₁ : 0 < bh₁) (h₂ : 0 < bh₂) :
    SpiralCalculator.CalculateSpiralGroove a d L bw bh₁ n =
      SpiralCalculator.CalculateSpiralGroove a d L bw bh₂ n := rfl

/-- Witness for C8: the example scenario of the spec with blade heights 1 and
7 yields identical centerlines. -/
theorem calculateSpiralGroove_ignores_bladeHeight_witness :
    SpiralCalculator.CalculateSpiralGroove 30 10 50 2 1 100 =
      SpiralCalculator.CalculateSpiralGroove 30 10 50 2 7 100 :=
  calculateSpiralGroove_ignores_bladeHeight 30 10 50 2 100 1 7 (by norm_num)
    (by norm_num)

/-- C9: `CalculateBoundaries` returns the empty sequence when given fewer
than 2 center points, and a sequence of exactly the same count when given 2
or more. -/
theorem calculateBoundaries_count (cps : List Point2D) (w : ℝ) :
    (cps.length < 2 → SpiralCalculator.CalculateBoundaries cps w = []) ∧
    (2 ≤ cps.length →
      (SpiralCalculator.CalculateBoundaries cps w).length = cps.length) := by
  constructor
  · intro h
    unfold SpiralCalculator.CalculateBoundaries
    rw [if_pos h]
  · intro h
    unfold SpiralCalculator.CalculateBoundaries
    rw [if_neg (by omega)]
    simp

/-- Witness for C9: a singleton input yields the empty sequence; a two-point
input yields exactly two boundary pairs. -/
theorem calculateBoundaries_count_witness :
    SpiralCalculator.CalculateBoundaries [({ x := 0, y := 0 } : Point2D)] 1 = [] ∧
    (SpiralCalculator.CalculateBoundaries
        [({ x := 0, y := 0 } : Point2D), { x := 1, y := 1 }] 1).length = 2 :=
  ⟨(calculateBoundaries_count [{ x := 0, y := 0 }] 1).1 (by norm_num),
    by simpa using
      (calculateBoundaries_count [{ x := 0, y := 0 }, { x := 1, y := 1 }] 1).2
        (by norm_num)⟩

/-- C10: the refinement pass is the identity on point values in every branch:
`CreatePolylineWithAutoCAD`, when it returns `true`, sets its output
point-for-point equal to its input, and `GenerateWithAutoCADAPI` leaves the
centerline, the boundary pairs and the tool outline value-identical to their
inputs, whether or not the AutoCAD backend is available and whatever the COM
environments of the four polyline calls are. -/
theorem autocad_refinement_is_identity (available : Bool)
    (envC envL envR envO env : AutoCADDrawer.AcadEnv)
    (c input : List Point2D) (b : List (Point2D × Point2D))
    (o : List Point2D) :
    ((AutoCADDrawer.CreatePolylineWithAutoCAD env input).1 = true →
      (AutoCADDrawer.CreatePolylineWithAutoCAD env input).2 = input) ∧
    (AutoCADDrawer.GenerateWithAutoCADAPI available envC envL envR envO
        c b o).2 = (c, b, o) := by
  refine ⟨fun h => AutoCADDrawer.createPolyline_fst_true h, ?_⟩
  unfold AutoCADDrawer.GenerateWithAutoCADAPI
  cases available
  · rfl
  · simp only [AutoCADDrawer.refinePolyline_eq_self, if_true]
    rw [← List.unzip_fst, ← List.unzip_snd, List.zip_unzip]

/-- Witness for C10: a fully successful COM environment returns the input
polyline unchanged, and a full `GenerateWithAutoCADAPI` run returns all three
sequences unchanged. -/
theorem autocad_refinement_is_identity_witness :
    (AutoCADDrawer.CreatePolylineWithAutoCAD ⟨true, true, true, true, false⟩
        [({ x := 0, y := 0 } : Point2D)]).2 = [({ x := 0, y := 0 } : Point2D)] ∧
    (AutoCADDrawer.GenerateWithAutoCADAPI true
        ⟨true, true, true, true, false⟩ ⟨true, true, true, true, false⟩
        ⟨true, true, true, true, false⟩ ⟨true, true, true, true, false⟩
        [{ x := 0, y := 0 }] [({ x := 0, y := 1 }, { x := 0, y := -1 })]
        [{ x := 2, y := 2 }]).2 =
      ([{ x := 0, y := 0 }], [({ x := 0, y := 1 }, { x := 0, y := -1 })],
        [{ x := 2, y := 2 }]) :=
  ⟨(autocad_refinement_is_identity true ⟨true, true, true, true, false⟩
      ⟨true, true, true, true, false⟩ ⟨true, true, true, true, false⟩
      ⟨true, true, true, true, false⟩ ⟨true, true, true, true, false⟩
      [{ x := 0, y := 0 }] [{ x := 0, y := 0 }] [] []).1 rfl,
    (autocad_refinement_is_identity true ⟨true, true, true, true, false⟩
      ⟨true, true, true, true, false⟩ ⟨true, true, true, true, false⟩
      ⟨true, true, true, true, false⟩ ⟨true, true, true, true, false⟩
      [{ x := 0, y := 0 }] [{ x := 0, y := 0 }]
      [({ x := 0, y := 1 }, { x := 0, y := -1 })] [{ x := 2, y := 2 }]).2⟩

/-- C3: for every valid input (helix angle strictly between 0 and 90 degrees,
diameter, length, flute width and height strictly positive), the centerline
returned by `CalculateSpiralGroove` has at least 10 points, strictly
increasing x coordinates, first x equal to 0 and last x equal to
`totalLength` (exactly, in the real-number model). -/
theorem centerline_shape_of_valid_input (a d L bw bh : ℝ) (n : ℤ)
    (h0 : 0 < a) (h90 : a < 90) (hd : 0 < d) (hL : 0 < L)
    (hbw : 0 < bw) (hbh : 0 < bh) :
    10 ≤ (SpiralCalculator.CalculateSpiralGroove a d L bw bh n).length ∧
    (SpiralCalculator.CalculateSpiralGroove a d L bw bh n).Pairwise
      (fun p q => p.x < q.x) ∧
    ((SpiralCalculator.CalculateSpiralGroove a d L bw bh n).head?.map
      Point2D.x) = some 0 ∧
    ((SpiralCalculator.CalculateSpiralGroove a d L bw bh n).getLast?.map
      Point2D.x) = some L := by
  refine ⟨?_, ?_, ?_, ?_⟩
  · rw [SpiralCalculator.calculateSpiralGroove_length]
    have h10 := SpiralCalculator.ten_le_totalPoints a d L n
    have := Int.toNat_le_toNat h10
    omega
  · rw [SpiralCalculator.calculateSpiralGroove_eq, List.pairwise_map]
    have hN := SpiralCalculator.totalPoints_cast_pos a d L n
    refine (List.pairwise_lt_range _).imp ?_
    intro i j hij
    show (i : ℝ) / _ * L < (j : ℝ) / _ * L
    have hij' : (i : ℝ) < (j : ℝ) := by exact_mod_cast hij
    gcongr
  · rw [SpiralCalculator.calculateSpiralGroove_head?]
    rfl
  · rw [SpiralCalculator.calculateSpiralGroove_getLast?]
    rfl

/-- Witness for C3 at the spec's example scenario (30°, ⌀10, length 50,
flute 2 × 1). -/
theorem centerline_shape_of_valid_input_witness :
    10 ≤ (SpiralCalculator.CalculateSpiralGroove 30 10 50 2 1 100).length ∧
    (SpiralCalculator.CalculateSpiralGroove 30 10 50 2 1 100).Pairwise
      (fun p q => p.x < q.x) ∧
    ((SpiralCalculator.CalculateSpiralGroove 30 10 50 2 1 100).head?.map
      Point2D.x) = some 0 ∧
    ((SpiralCalculator.CalculateSpiralGroove 30 10 50 2 1 100).getLast?.map
      Point2D.x) = some 50 :=
  centerline_shape_of_valid_input 30 10 50 2 1 100 (by norm_num) (by norm_num)
    (by norm_num) (by norm_num) (by norm_num) (by norm_num)

/-- The y-extent of a valid-input centerline equals
`totalLength * tan(angleRad)`. -/
lemma yExtent_calculateSpiralGroove {a d L : ℝ} (bw bh : ℝ) (n : ℤ)
    (h0 : 0 < a) (h90 : a < 90) (hd : 0 < d) (hL : 0 < L) :
    yExtent (SpiralCalculator.CalculateSpiralGroove a d L bw bh n) =
      L * Real.tan (a * π / 180) := by
  unfold yExtent
  rw [List.getLastD_eq_getLast?, List.headD_eq_head?_getD,
    SpiralCalculator.calculateSpiralGroove_head?,
    SpiralCalculator.calculateSpiralGroove_getLast?]
  show L / SpiralCalculator.adjPitch a d L * (2 * π * (d / 2)) - 0 = _
  rw [SpiralCalculator.yLast_of_valid h0 h90 hd hL]
  ring

/-- C6: holding diameter, length, flute width and flute height fixed, a
larger valid helix angle gives a strictly smaller pitch and a strictly larger
centerline y-extent. -/
theorem pitch_and_yExtent_monotone_in_angle (a₁ a₂ d L bw bh : ℝ) (n : ℤ)
    (h0 : 0 < a₁) (h12 : a₁ < a₂) (h90 : a₂ < 90) (hd : 0 < d) (hL : 0 < L) :
    SpiralCalculator.spiralPitch a₂ d < SpiralCalculator.spiralPitch a₁ d ∧
    yExtent (SpiralCalculator.CalculateSpiralGroove a₁ d L bw bh n) <
      yExtent (SpiralCalculator.CalculateSpiralGroove a₂ d L bw bh n) := by
  have h0₂ : 0 < a₂ := h0.trans h12
  have h90₁ : a₁ < 90 := h12.trans h90
  have ht₁ := SpiralCalculator.tan_angle_pos h0 h90₁
  have ht₂ := SpiralCalculator.tan_angle_pos h0₂ h90
  have htlt : Real.tan (a₁ * π / 180) < Real.tan (a₂ * π / 180) := by
    apply Real.tan_lt_tan_of_nonneg_of_lt_pi_div_two
    · positivity
    · nlinarith [Real.pi_pos]
    · nlinarith [Real.pi_pos]
  constructor
  · unfold SpiralCalculator.spiralPitch
    have hc : 0 < 2 * π * (d / 2) := by
      have := Real.pi_pos
      positivity
    exact div_lt_div_of_pos_left hc ht₁ htlt
  · rw [yExtent_calculateSpiralGroove bw bh n h0 h90₁ hd hL,
      yExtent_calculateSpiralGroove bw bh n h0₂ h90 hd hL]
    exact mul_lt_mul_of_pos_left htlt hL

/-- Witness for C6: angles 30° and 60° at ⌀10, length 50, flute 2 × 1. -/
theorem pitch_and_yExtent_monotone_in_angle_witness :
    SpiralCalculator.spiralPitch 60 10 < SpiralCalculator.spiralPitch 30 10 ∧
    yExtent (SpiralCalculator.CalculateSpiralGroove 30 10 50 2 1 100) <
      yExtent (SpiralCalculator.CalculateSpiralGroove 60 10 50 2 1 100) :=
  pitch_and_yExtent_monotone_in_angle 30 60 10 50 2 1 100 (by norm_num)
    (by norm_num) (by norm_num) (by norm_num) (by norm_num)

/-- Every generated centerline has at least 2 points (the interval count is
floored at 10), so `CalculateBoundaries` never takes its early-return
branch on a generated centerline. -/
lemma two_le_length_calculateSpiralGroove (a d L bw bh : ℝ) (n : ℤ) :
    2 ≤ (SpiralCalculator.CalculateSpiralGroove a d L bw bh n).length := by
  rw [SpiralCalculator.calculateSpiralGroove_length]
  have h10 := SpiralCalculator.ten_le_totalPoints a d L n
  have := Int.toNat_le_toNat h10
  omega

/-- On a generated centerline, `CalculateBoundaries` is the per-point
transverse offset map. -/
lemma calculateBoundaries_grooveMap (a d L bw bh w : ℝ) (n : ℤ) :
    SpiralCalculator.CalculateBoundaries
        (SpiralCalculator.CalculateSpiralGroove a d L bw bh n) w =
      (SpiralCalculator.CalculateSpiralGroove a d L bw bh n).map fun c =>
        ({ x := c.x, y := c.y + w / 2 }, { x := c.x, y := c.y - w / 2 }) := by
  unfold SpiralCalculator.CalculateBoundaries
  rw [if_neg]
  have := two_le_length_calculateSpiralGroove a d L bw bh n
  omega

/-- The first centerline point is the origin, for every input. -/
lemma calculateSpiralGroove_getElem_zero (a d L bw bh : ℝ) (n : ℤ) :
    (SpiralCalculator.CalculateSpiralGroove a d L bw bh n)[0]? =
      some ⟨0, 0⟩ := by
  rw [SpiralCalculator.calculateSpiralGroove_eq, List.getElem?_map,
    List.getElem?_range (by omega)]
  norm_num

/-- C4: on every generated centerline sequence and for every blade width,
`CalculateBoundaries` is index-aligned with the centerline, and at every
aligned index the left/right pair satisfies `left.y − right.y = bladeWidth`
and `left.x = right.x = centerline[i].x` (exactly, in the real-number
model). -/
theorem boundaries_aligned_with_centerline (a d L bw bh w : ℝ) (n : ℤ) :
    (SpiralCalculator.CalculateBoundaries
        (SpiralCalculator.CalculateSpiralGroove a d L bw bh n) w).length =
      (SpiralCalculator.CalculateSpiralGroove a d L bw bh n).length ∧
    ∀ (i : ℕ) (pr : Point2D × Point2D) (c : Point2D),
      (SpiralCalculator.CalculateBoundaries
          (SpiralCalculator.CalculateSpiralGroove a d L bw bh n) w)[i]? =
        some pr →
      (SpiralCalculator.CalculateSpiralGroove a d L bw bh n)[i]? = some c →
      pr.1.y - pr.2.y = w ∧ pr.1.x = c.x ∧ pr.2.x = c.x := by
  rw [calculateBoundaries_grooveMap]
  refine ⟨by simp, ?_⟩
  intro i pr c hpr hc
  rw [List.getElem?_map, hc] at hpr
  obtain rfl : ({ x := c.x, y := c.y + w / 2 }, { x := c.x, y := c.y - w / 2 })
      = pr := by simpa using hpr
  refine ⟨by ring, rfl, rfl⟩

/-- Witness for C4: at index 0 of a concrete run, the pair straddles the
centerline point with the exact blade width. -/
theorem boundaries_aligned_with_centerline_witness :
    (SpiralCalculator.CalculateBoundaries
        (SpiralCalculator.CalculateSpiralGroove 0 10 60 2 1 100) 4).length =
      (SpiralCalculator.CalculateSpiralGroove 0 10 60 2 1 100).length ∧
    ∃ (pr : Point2D × Point2D) (c : Point2D),
      (SpiralCalculator.CalculateBoundaries
          (SpiralCalculator.CalculateSpiralGroove 0 10 60 2 1 100) 4)[0]? =
        some pr ∧
      (SpiralCalculator.CalculateSpiralGroove 0 10 60 2 1 100)[0]? = some c ∧
      (pr.1.y - pr.2.y = 4 ∧ pr.1.x = c.x ∧ pr.2.x = c.x) := by
  have h := boundaries_aligned_with_centerline 0 10 60 2 1 4 100
  have hc := calculateSpiralGroove_getElem_zero 0 10 60 2 1 100
  have hb : (SpiralCalculator.CalculateBoundaries
      (SpiralCalculator.CalculateSpiralGroove 0 10 60 2 1 100) 4)[0]? =
      some (⟨0, 0 + 4 / 2⟩, ⟨0, 0 - 4 / 2⟩) := by
    rw [calculateBoundaries_grooveMap, List.getElem?_map, hc]
    rfl
  exact ⟨h.1, _, _, hb, hc, h.2 0 _ _ hb hc⟩

/-- At a zero helix angle the tangent vanishes, so the pitch is a division by
zero (`0` in the real model, `±inf`/NaN in C++) and the fallback fires. -/
lemma fallback_fires_at_zero_angle :
    (60 : ℝ) / SpiralCalculator.spiralPitch 0 10 ≤ 0 := by
  unfold SpiralCalculator.spiralPitch
  norm_num [Real.tan_zero]

/-- C2 counterexample: spiralAngle = 0 with the default 100 samples per
revolution triggers the fallback (`revolutions ≤ 0`), yet the sequence has
101 points (pointCount = 100 = samplesPerRevolution), not the 11 points
(pointCount floor = 10) the claim asserts. -/
theorem fallback_pointCount_counterexample :
    (60 : ℝ) / SpiralCalculator.spiralPitch 0 10 ≤ 0 ∧
    (SpiralCalculator.CalculateSpiralGroove 0 10 60 2 1 100).length = 101 ∧
    (SpiralCalculator.CalculateSpiralGroove 0 10 60 2 1 100).length ≠ 11 := by
  have hfb := fallback_fires_at_zero_angle
  have htp : SpiralCalculator.totalPoints 0 10 60 100 = 100 := by
    unfold SpiralCalculator.totalPoints
    rw [SpiralCalculator.adjRevolutions_of_fallback hfb, one_mul, truncToInt]
    rw [if_neg (by norm_num)]
    norm_num
  rw [SpiralCalculator.calculateSpiralGroove_length, htp]
  exact ⟨hfb, rfl, by decide⟩

/-- C2 (amended): whenever `totalLength / pitch ≤ 0` (the real-number
analogue of the C++ test for non-positive, NaN or infinite revolutions),
`CalculateSpiralGroove` produces exactly one synthetic revolution: with
`samplesPerRevolution ≥ 10` the sequence has `samplesPerRevolution + 1`
points (the floor of 10 is not reached at the default sampling density), and
when `totalLength > 0` the pitch falls back to `totalLength`, so the last
centerline point is exactly `(totalLength, circumference)`. -/
theorem fallback_one_synthetic_revolution (a d L bw bh : ℝ) (n : ℤ)
    (hfb : L / SpiralCalculator.spiralPitch a d ≤ 0) (hn : 10 ≤ n) :
    (SpiralCalculator.CalculateSpiralGroove a d L bw bh n).length =
      n.toNat + 1 ∧
    (0 < L →
      (SpiralCalculator.CalculateSpiralGroove a d L bw bh n).getLast? =
        some ⟨L, 2 * π * (d / 2)⟩) := by
  have hn0 : (0 : ℤ) ≤ n := le_trans (by norm_num) hn
  have htp : SpiralCalculator.totalPoints a d L n = n := by
    unfold SpiralCalculator.totalPoints
    rw [SpiralCalculator.adjRevolutions_of_fallback hfb, one_mul, truncToInt]
    rw [if_neg (by exact_mod_cast not_lt.mpr (Int.cast_nonneg.mpr hn0))]
    rw [Int.floor_intCast]
    exact max_eq_left hn
  constructor
  · rw [SpiralCalculator.calculateSpiralGroove_length, htp]
  · intro hL
    rw [SpiralCalculator.calculateSpiralGroove_getLast?,
      SpiralCalculator.adjPitch_of_fallback hfb hL,
      div_self (ne_of_gt hL), one_mul]

/-- Witness for C2 (amended): the zero-angle run yields 101 points and last
point `(60, circumference)`. -/
theorem fallback_one_synthetic_revolution_witness :
    (SpiralCalculator.CalculateSpiralGroove 0 10 60 2 1 100).length =
      (100 : ℤ).toNat + 1 ∧
    (SpiralCalculator.CalculateSpiralGroove 0 10 60 2 1 100).getLast? =
      some ⟨60, 2 * π * (10 / 2)⟩ :=
  ⟨(fallback_one_synthetic_revolution 0 10 60 2 1 100
      fallback_fires_at_zero_angle (by norm_num)).1,
    (fallback_one_synthetic_revolution 0 10 60 2 1 100
      fallback_fires_at_zero_angle (by norm_num)).2 (by norm_num)⟩

/-- C1 (amended): for every input, the sample-interval count (the length of
the returned sequence minus 1) is the C `(int)` truncation toward zero of
`revolutions * samplesPerRevolution`, floored to a minimum of 10, where
`revolutions` is the (possibly fallback-adjusted) value
`totalLength / pitch`.  The code truncates; it does not round. -/
theorem pointCount_is_truncated (a d L bw bh : ℝ) (n : ℤ) :
    (SpiralCalculator.CalculateSpiralGroove a d L bw bh n).length =
      (max (truncToInt (SpiralCalculator.adjRevolutions a d L * (n : ℝ))) 10).toNat
        + 1 :=
  SpiralCalculator.calculateSpiralGroove_length a d L bw bh n

/-- Arithmetic bound for the C1 counterexample: `⌊600/π⌋ = 190`. -/
lemma floor_600_div_pi : ⌊(600 : ℝ) / π⌋ = 190 := by
  have hπ0 := Real.pi_pos
  rw [Int.floor_eq_iff]
  constructor
  · rw [show ((190 : ℤ) : ℝ) = 190 by norm_num, le_div_iff hπ0]
    nlinarith [Real.pi_lt_d6]
  · rw [show ((190 : ℤ) : ℝ) + 1 = 191 by norm_num, div_lt_iff hπ0]
    nlinarith [Real.pi_gt_d6]

/-- Arithmetic bound for the C1 counterexample: `round(600/π) = 191`. -/
lemma round_600_div_pi : round ((600 : ℝ) / π) = 191 := by
  have hπ0 := Real.pi_pos
  rw [round_eq, Int.floor_eq_iff]
  constructor
  · have : (190.5 : ℝ) ≤ 600 / π := by
      rw [le_div_iff hπ0]
      nlinarith [Real.pi_lt_d6]
    push_cast
    linarith
  · have : (600 : ℝ) / π < 191.5 := by
      rw [div_lt_iff hπ0]
      nlinarith [Real.pi_gt_d6]
    push_cast
    linarith

/-- The pitch at 45° and diameter 10 is exactly `10π` (since `tan 45° = 1`). -/
lemma spiralPitch_45_10 : SpiralCalculator.spiralPitch 45 10 = 10 * π := by
  unfold SpiralCalculator.spiralPitch
  rw [show (45 : ℝ) * π / 180 = π / 4 by ring, Real.tan_pi_div_four]
  ring

/-- The revolutions at 45°, ⌀10, length 60 are `6/π`. -/
lemma revolutions_45_10_60 :
    (60 : ℝ) / SpiralCalculator.spiralPitch 45 10 = 6 / π := by
  have hπ := Real.pi_ne_zero
  rw [spiralPitch_45_10]
  field_simp
  ring

/-- C1 counterexample: at 45°, ⌀10, length 60 and 100 samples per revolution
the revolutions are `6/π ≈ 1.9099` (positive, so no fallback); the code's
truncation gives 190 intervals (191 points) while the claim's
`round(revolutions * samplesPerRevolution) = round(600/π) = 191` would give
192 points. -/
theorem pointCount_round_counterexample :
    0 < (60 : ℝ) / SpiralCalculator.spiralPitch 45 10 ∧
    (SpiralCalculator.CalculateSpiralGroove 45 10 60 2 1 100).length = 191 ∧
    (max (round ((60 / SpiralCalculator.spiralPitch 45 10) * (100 : ℝ))) 10).toNat
        + 1 = 192 := by
  have hπ0 := Real.pi_pos
  have hrevpos : 0 < (60 : ℝ) / SpiralCalculator.spiralPitch 45 10 := by
    rw [revolutions_45_10_60]
    positivity
  refine ⟨hrevpos, ?_, ?_⟩
  · have hadj : SpiralCalculator.adjRevolutions 45 10 60 = 6 / π := by
      unfold SpiralCalculator.adjRevolutions
      rw [if_neg (not_le.mpr hrevpos), revolutions_45_10_60]
    have htr : truncToInt (6 / π * ((100 : ℤ) : ℝ)) = 190 := by
      rw [truncToInt, if_neg (not_lt.mpr (by positivity)),
        show (6 : ℝ) / π * ((100 : ℤ) : ℝ) = 600 / π by push_cast; ring]
      exact floor_600_div_pi
    have htp : SpiralCalculator.totalPoints 45 10 60 100 = 190 := by
      unfold SpiralCalculator.totalPoints
      rw [hadj, htr]
      decide
    rw [SpiralCalculator.calculateSpiralGroove_length, htp]
    decide
  · rw [revolutions_45_10_60,
      show (6 : ℝ) / π * (100 : ℝ) = 600 / π by ring, round_600_div_pi]
    decide

/-- C5: the view-fitting step produces a scale that is identical on both
axes, equal to `min(targetWidth/extentX, targetHeight/extentY) * (1 − 0.15)`,
strictly positive whenever the target rectangle is non-degenerate and both
bounding-box extents are positive; the offset centers the scaled bounding box
in the target rectangle (whose x-origin is 250 and y-origin is 10), the
scaled extents stay within the margin-reduced target and the binding axis
fills it exactly.  When either extent is not positive, the previous transform
is retained unchanged. -/
theorem viewFitter_uniform_scale_centered (prev : ViewState)
    (W H minX maxX minY maxY : ℝ) (v : ViewState)
    (hv : v = MainWindow.fitView prev W H minX maxX minY maxY) :
    (0 < W → 0 < H → 0 < maxX - minX → 0 < maxY - minY →
      v.scaleX = v.scaleY ∧
      v.scaleX = min (W / (maxX - minX)) (H / (maxY - minY)) * (1 - 0.15) ∧
      0 < v.scaleX ∧
      (minX * v.scaleX + v.offsetX) + (maxX * v.scaleX + v.offsetX) =
        2 * (250 + W / 2) ∧
      (minY * v.scaleY + v.offsetY) + (maxY * v.scaleY + v.offsetY) =
        2 * (10 + H / 2) ∧
      (maxX - minX) * v.scaleX ≤ (1 - 0.15) * W ∧
      (maxY - minY) * v.scaleY ≤ (1 - 0.15) * H ∧
      ((maxX - minX) * v.scaleX = (1 - 0.15) * W ∨
        (maxY - minY) * v.scaleY = (1 - 0.15) * H)) ∧
    (¬ (0 < maxX - minX ∧ 0 < maxY - minY) → v = prev) := by
  subst hv
  constructor
  · intro hW hH hrx hry
    have hrx0 : maxX - minX ≠ 0 := ne_of_gt hrx
    have hry0 : maxY - minY ≠ 0 := ne_of_gt hry
    simp only [MainWindow.fitView]
    rw [if_pos ⟨hrx, hry⟩]
    dsimp only
    have hWr : (maxX - minX) * (W / (maxX - minX) * 0.85) = (1 - 0.15) * W := by
      field_simp
      ring
    have hHr : (maxY - minY) * (H / (maxY - minY) * 0.85) = (1 - 0.15) * H := by
      field_simp
      ring
    have hscale : min (W / (maxX - minX) * 0.85) (H / (maxY - minY) * 0.85) =
        min (W / (maxX - minX)) (H / (maxY - minY)) * (1 - 0.15) := by
      rw [min_mul_of_nonneg _ _ (by norm_num : (0 : ℝ) ≤ 1 - 0.15)]
      norm_num
    have hpos : 0 < min (W / (maxX - minX) * 0.85) (H / (maxY - minY) * 0.85) :=
      lt_min (by positivity) (by positivity)
    have h6 : (maxX - minX) *
        min (W / (maxX - minX) * 0.85) (H / (maxY - minY) * 0.85) ≤
        (1 - 0.15) * W :=
      le_of_le_of_eq
        (mul_le_mul_of_nonneg_left (min_le_left _ _) (le_of_lt hrx)) hWr
    have h7 : (maxY - minY) *
        min (W / (maxX - minX) * 0.85) (H / (maxY - minY) * 0.85) ≤
        (1 - 0.15) * H :=
      le_of_le_of_eq
        (mul_le_mul_of_nonneg_left (min_le_right _ _) (le_of_lt hry)) hHr
    have h8 : (maxX - minX) *
          min (W / (maxX - minX) * 0.85) (H / (maxY - minY) * 0.85) =
          (1 - 0.15) * W ∨
        (maxY - minY) *
          min (W / (maxX - minX) * 0.85) (H / (maxY - minY) * 0.85) =
          (1 - 0.15) * H := by
      rcases min_cases (W / (maxX - minX) * 0.85) (H / (maxY - minY) * 0.85) with
        ⟨heq, _⟩ | ⟨heq, _⟩
      · left
        rw [heq, hWr]
      · right
        rw [heq, hHr]
    exact ⟨rfl, hscale, hpos, by ring, by ring, h6, h7, h8⟩
  · intro hn
    simp only [MainWindow.fitView]
    rw [if_neg hn]

/-- Witness for C5: a 100 × 50 target with bounding box [0,10] × [0,10]
(the y-candidate binds), plus a degenerate zero-x-extent box that keeps the
previous transform. -/
theorem viewFitter_uniform_scale_centered_witness :
    ((MainWindow.fitView ⟨1, 2, 3, 4⟩ 100 50 0 10 0 10).scaleX =
        (MainWindow.fitView ⟨1, 2, 3, 4⟩ 100 50 0 10 0 10).scaleY ∧
      (MainWindow.fitView ⟨1, 2, 3, 4⟩ 100 50 0 10 0 10).scaleX =
        min (100 / (10 - 0)) (50 / (10 - 0)) * (1 - 0.15) ∧
      0 < (MainWindow.fitView ⟨1, 2, 3, 4⟩ 100 50 0 10 0 10).scaleX ∧
      (0 * (MainWindow.fitView ⟨1, 2, 3, 4⟩ 100 50 0 10 0 10).scaleX +
          (MainWindow.fitView ⟨1, 2, 3, 4⟩ 100 50 0 10 0 10).offsetX) +
        (10 * (MainWindow.fitView ⟨1, 2, 3, 4⟩ 100 50 0 10 0 10).scaleX +
          (MainWindow.fitView ⟨1, 2, 3, 4⟩ 100 50 0 10 0 10).offsetX) =
        2 * (250 + 100 / 2) ∧
      (0 * (MainWindow.fitView ⟨1, 2, 3, 4⟩ 100 50 0 10 0 10).scaleY +
          (MainWindow.fitView ⟨1, 2, 3, 4⟩ 100 50 0 10 0 10).offsetY) +
        (10 * (MainWindow.fitView ⟨1, 2, 3, 4⟩ 100 50 0 10 0 10).scaleY +
          (MainWindow.fitView ⟨1, 2, 3, 4⟩ 100 50 0 10 0 10).offsetY) =
        2 * (10 + 50 / 2) ∧
      (10 - 0) * (MainWindow.fitView ⟨1, 2, 3, 4⟩ 100 50 0 10 0 10).scaleX ≤
        (1 - 0.15) * 100 ∧
      (10 - 0) * (MainWindow.fitView ⟨1, 2, 3, 4⟩ 100 50 0 10 0 10).scaleY ≤
        (1 - 0.15) * 50 ∧
      ((10 - 0) * (MainWindow.fitView ⟨1, 2, 3, 4⟩ 100 50 0 10 0 10).scaleX =
          (1 - 0.15) * 100 ∨
        (10 - 0) * (MainWindow.fitView ⟨1, 2, 3, 4⟩ 100 50 0 10 0 10).scaleY =
          (1 - 0.15) * 50)) ∧
    MainWindow.fitView ⟨1, 2, 3, 4⟩ 100 50 0 0 0 10 = ⟨1, 2, 3, 4⟩ :=
  ⟨(viewFitter_uniform_scale_centered ⟨1, 2, 3, 4⟩ 100 50 0 10 0 10 _ rfl).1
      (by norm_num) (by norm_num) (by norm_num) (by norm_num),
    (viewFitter_uniform_scale_centered ⟨1, 2, 3, 4⟩ 100 50 0 0 0 10 _ rfl).2
      (by norm_num)⟩
